import Mathlib

/-!
Verification of the shortcode lifecycle engine of a URL-shortening service.

The definitions below are a shallow embedding of the JavaScript source:

* `src/server.js` — the Express backend: `generateShortcode`, `isValidShortcode`,
  `isShortcodeUnique`, `generateUniqueShortcode`, `app.post('/shorturls')`,
  `app.get('/shorturls/:shortcode')`, `app.get('/:shortcode')`, plus the helper
  module concatenated into it (`validateValidityPeriod`, `calculateExpiryDate`,
  `isExpired`).
* `src/backend-test-submission/routes/shorturls.js` — the modular variant of the
  same routes; it is behaviourally identical to `server.js` except that its
  create route propagates `validateValidityPeriod`'s specific error message
  (sub-kind), which we keep.

Modelling conventions:

* Timestamps are `Int` milliseconds since the epoch (JS `Date.getTime()`).
  The process clock reading (`Date.now()`) and the datastore clock reading
  (SQLite `CURRENT_TIMESTAMP`, which the schema assigns to `created_at` and
  `clicked_at` by default) are distinct inputs, because the source reads them
  at distinct moments from distinct clocks.
* The datastore (SQLite) is a `Store`: the `short_urls` and `clicks` tables as
  lists in insertion order.  A point lookup is `List.find?`; the
  `ORDER BY clicked_at DESC` query is an insertion sort, which is one of the
  orders SQLite may produce (SQLite fixes only the non-strict descending
  order of the `clicked_at` column, ties are in unspecified order).
* Effects are explicit parameters: `Math.random`-driven candidate generation is
  an oracle `gen : Nat → String`; a thrown datastore read during the
  uniqueness check is the flag `readFault`; the outcome of the `INSERT` is an
  `InsertOutcome` (success, `SQLITE_CONSTRAINT` unique violation, or any other
  throw) or, for the click insert, a `Bool`; the external `validator.isURL`
  collaborator is a predicate parameter `validUrl`.
-/

namespace UrlShortener

/-- Row of the `short_urls` table (`initializeDatabase` in `src/server.js`):
`shortcode TEXT UNIQUE NOT NULL`, `original_url TEXT NOT NULL`,
`created_at DATETIME DEFAULT CURRENT_TIMESTAMP` (assigned by the datastore
clock at insert), `expires_at DATETIME NOT NULL` (supplied by the server),
`validity_minutes INTEGER NOT NULL`. -/
structure ShortUrl where
  shortcode : String
  originalUrl : String
  createdAt : Int
  expiresAt : Int
  validityMinutes : Int
deriving DecidableEq, Repr

/-- Row of the `clicks` table: `shortcode`, `clicked_at DATETIME DEFAULT
CURRENT_TIMESTAMP` (assigned by the datastore clock at insert), `referrer`,
`ip_address`, `user_agent` (nullable columns are `Option`). -/
structure ClickEvent where
  shortcode : String
  clickedAt : Int
  referrer : Option String
  ipAddress : String
  userAgent : Option String
deriving DecidableEq, Repr

/-- The SQLite datastore: both tables, rows in insertion order. -/
structure Store where
  shortUrls : List ShortUrl
  clicks : List ClickEvent
deriving DecidableEq, Repr

/-- Point lookup `SELECT * FROM short_urls WHERE shortcode = ?` (`db.get`
returns the first matching row; `shortcode` is UNIQUE so there is at most
one). -/
def dbGetShortUrl (store : Store) (code : String) : Option ShortUrl :=
  store.shortUrls.find? (fun r => r.shortcode == code)

/-- JS `parseInt` in radix 10 as used on the `validity` field: skip leading
whitespace, optional sign, then the maximal leading run of decimal digits;
`NaN` (here `none`) when that run is empty. -/
def parseIntJS (s : String) : Option Int :=
  let cs := s.data.dropWhile (fun c => c = ' ' || c = '\t' || c = '\n' || c = '\r')
  let signed : Int × List Char :=
    match cs with
    | '-' :: rest => (-1, rest)
    | '+' :: rest => (1, rest)
    | _ => (1, cs)
  let ds := signed.2.takeWhile Char.isDigit
  if ds.isEmpty then none
  else some (signed.1 * (ds.foldl (fun acc c => acc * 10 + (c.toNat - '0'.toNat)) 0 : Nat))

/-- Error cases of `validateValidityPeriod` (helper module), distinguished in
the source by their message strings: `'Validity must be a number'`,
`'Validity must be at least 1 minute'`, `'Validity cannot exceed 10080
minutes (1 week)'`. -/
inductive ValidityError
  | notANumber
  | tooShort
  | tooLong
deriving DecidableEq, Repr

/-- `validateValidityPeriod(validity)` from the helper module:
`parseInt`, then `isNaN` / `< 1` / `> 10080` checks in that order.
The inline check in `app.post('/shorturls')` of `src/server.js`
(`isNaN(validityMinutes) || validityMinutes < 1 || validityMinutes > 10080`)
accepts and rejects exactly the same inputs. -/
def validateValidityPeriod (validity : String) : Except ValidityError Int :=
  match parseIntJS validity with
  | none => Except.error ValidityError.notANumber
  | some m =>
    if m < 1 then Except.error ValidityError.tooShort
    else if m > 10080 then Except.error ValidityError.tooLong
    else Except.ok m

/-- `isValidShortcode(shortcode)` from `src/server.js`:
`/^[a-zA-Z0-9]{3,20}$/.test(shortcode)`. -/
def isValidShortcode (code : String) : Bool :=
  3 ≤ code.length && code.length ≤ 20 && code.data.all (fun c => c.isAlpha || c.isDigit)

/-- `isShortcodeUnique(shortcode)` from `src/server.js`: `db.get` the row and
return `!existing`; a thrown datastore read (`readFault`) is caught, logged,
and turned into `false`. -/
def isShortcodeUnique (readFault : Bool) (store : Store) (code : String) : Bool :=
  if readFault then false
  else (dbGetShortUrl store code).isNone

/-- Loop body of `generateUniqueShortcode` from `src/server.js`, with the JS
`attempts` counter made explicit.  Each `do`-iteration draws the next
candidate from the oracle `gen`, increments `attempts`, returns `null` once
`attempts > maxAttempts`, and otherwise exits the loop when the uniqueness
check passes. -/
def genLoop (gen : Nat → String) (unique : String → Bool) (maxAttempts attempts : Nat) :
    Option String :=
  let shortcode := gen attempts
  if h : maxAttempts < attempts + 1 then none
  else if unique shortcode then some shortcode
  else genLoop gen unique maxAttempts (attempts + 1)
termination_by maxAttempts - attempts
decreasing_by omega

/-- `generateUniqueShortcode(maxAttempts = 10)` from `src/server.js`
(`attempts` starts at `0`; the call in `app.post('/shorturls')` uses the
default `maxAttempts = 10`). -/
def generateUniqueShortcode (gen : Nat → String) (unique : String → Bool)
    (maxAttempts : Nat) : Option String :=
  genLoop gen unique maxAttempts 0

/-- Outcome of the `db.run(INSERT INTO short_urls ...)` statement: success, a
`SQLITE_CONSTRAINT` throw from the UNIQUE constraint on `shortcode` (a
concurrent creator inserted the code between the pre-check and the insert),
or any other throw. -/
inductive InsertOutcome
  | ok
  | uniqueViolation
  | otherFault
deriving DecidableEq, Repr

/-- The 201 response body of the create route: `shortLink`, `expiry`,
`shortcode`, `originalUrl`, `validityMinutes`. -/
structure CreateResponse where
  shortLink : String
  expiry : Int
  shortcode : String
  originalUrl : String
  validityMinutes : Int
deriving DecidableEq, Repr

/-- Results of the create route, one constructor per `res.status(...)` exit:
400 `'URL is required'`, 400 `'Invalid URL format'`, 400 `'Invalid validity
period'` (with `validateValidityPeriod`'s sub-kind), 400 `'Invalid shortcode
format'`, 409 `'Shortcode already exists'`, 500 `'Unable to generate unique
shortcode'`, the catch-all 500 `'Server error'`, and the 201 success. -/
inductive CreateResult
  | missingUrl
  | invalidUrlFormat
  | invalidValidity (e : ValidityError)
  | invalidShortcodeFormat
  | duplicateCode
  | generationExhausted
  | serverError
  | created (resp : CreateResponse)
deriving DecidableEq, Repr

/-- The create route `POST /shorturls` (`app.post('/shorturls')` in
`src/server.js`; `router.post('/')` in
`src/backend-test-submission/routes/shorturls.js` is the same code except
that it reports `validateValidityPeriod`'s specific sub-kind message, which
we keep).  Steps, in source order: the falsy check on `url` (absent or empty
string), `validator.isURL` (the external collaborator `validUrl`),
`parseInt`/range check on `validity` (destructuring default `30` when the
field is absent; `parseInt(30) = 30`, modelled as the string `"30"`), then
either the custom-shortcode path (`isValidShortcode`, `isShortcodeUnique`)
or `generateUniqueShortcode()`, then `expiresAt = Date.now() + validityMinutes
* 60 * 1000` (`nowMs` is that `Date.now()` reading) and the `INSERT`, whose
row receives `created_at` from the datastore clock (`dbNowMs`).  Any throw
from the `INSERT` lands in the route's single `catch` block, which answers
500 `'Server error'` without inspecting the error. -/
def create (validUrl : String → Bool) (gen : Nat → String) (store : Store)
    (url validity shortcode : Option String) (nowMs dbNowMs : Int)
    (readFault : Bool) (insert : InsertOutcome) : CreateResult × Store :=
  let u := url.getD ""
  if u = "" then (CreateResult.missingUrl, store)
  else if !validUrl u then (CreateResult.invalidUrlFormat, store)
  else
    match validateValidityPeriod (validity.getD "30") with
    | Except.error e => (CreateResult.invalidValidity e, store)
    | Except.ok validityMinutes =>
      let sc := shortcode.getD ""
      let finalShortcode : Except CreateResult String :=
        if sc ≠ "" then
          if !isValidShortcode sc then Except.error CreateResult.invalidShortcodeFormat
          else if !isShortcodeUnique readFault store sc then
            Except.error CreateResult.duplicateCode
          else Except.ok sc
        else
          match generateUniqueShortcode gen (isShortcodeUnique readFault store) 10 with
          | none => Except.error CreateResult.generationExhausted
          | some c => Except.ok c
      match finalShortcode with
      | Except.error r => (r, store)
      | Except.ok code =>
        let expiresAt := nowMs + validityMinutes * 60000
        match insert with
        | InsertOutcome.ok =>
          (CreateResult.created
            ⟨"http://localhost:8000/" ++ code, expiresAt, code, u, validityMinutes⟩,
           ⟨store.shortUrls ++ [⟨code, u, dbNowMs, expiresAt, validityMinutes⟩],
            store.clicks⟩)
        | InsertOutcome.uniqueViolation => (CreateResult.serverError, store)
        | InsertOutcome.otherFault => (CreateResult.serverError, store)

/-- `isExpired(expiresAt)` from the helper module:
`new Date() > new Date(expiresAt)`, a strict comparison of millisecond
values (`nowMs` is the `new Date()` reading). -/
def isExpired (nowMs expiresAt : Int) : Bool :=
  decide (expiresAt < nowMs)

/-- Results of looking a shortcode up for redirect: 404 `'Short URL not
found'`, 410 `'Short URL expired'` carrying `expiredAt`, or the row. -/
inductive FetchResult
  | notFound
  | expired (expiredAt : Int)
  | found (r : ShortUrl)
deriving DecidableEq, Repr

/-- The fetch-and-expiry-check portion of the redirect route
(`app.get('/:shortcode')` in `src/server.js`, after the special-route guard):
`db.get` the row, 404 when absent, 410 carrying `shortUrl.expires_at` when
`now > expiresAt` (strict `Date` comparison, as in the helper `isExpired`),
otherwise the row. -/
def fetchForRedirect (store : Store) (code : String) (nowMs : Int) : FetchResult :=
  match dbGetShortUrl store code with
  | none => FetchResult.notFound
  | some r =>
    if isExpired nowMs r.expiresAt then FetchResult.expired r.expiresAt
    else FetchResult.found r

/-- The special-route guard list of `app.get('/:shortcode')` in
`src/server.js`: `['api', 'shorturls', 'static', 'favicon.ico']`. -/
def specialRoutes : List String :=
  ["api", "shorturls", "static", "favicon.ico"]

/-- Results of the redirect route: 404, 410 carrying `expiredAt`, the 302
redirect carrying its `Location`, or the catch-all 500 `'Server error'`. -/
inductive RedirectResult
  | notFound
  | expired (expiredAt : Int)
  | redirect (location : String)
  | serverError
deriving DecidableEq, Repr

/-- The redirect route `GET /:shortcode` (`app.get('/:shortcode')` in
`src/server.js`): 404 for the four special route names before any lookup;
then `fetchForRedirect`; on a found row, `db.run(INSERT INTO clicks ...)` is
awaited before `res.redirect(302, ...)`, so a throw from that insert
(`clickInsertOk = false`) lands in the route's `catch` block and answers 500
`'Server error'`; the inserted row receives `clicked_at` from the datastore
clock (`clickAtMs`). -/
def handleRedirect (store : Store) (code : String) (nowMs clickAtMs : Int)
    (referrer : Option String) (ipAddress : String) (userAgent : Option String)
    (clickInsertOk : Bool) : RedirectResult × Store :=
  if specialRoutes.contains code then (RedirectResult.notFound, store)
  else
    match fetchForRedirect store code nowMs with
    | FetchResult.notFound => (RedirectResult.notFound, store)
    | FetchResult.expired t => (RedirectResult.expired t, store)
    | FetchResult.found r =>
      if clickInsertOk then
        (RedirectResult.redirect r.originalUrl,
         ⟨store.shortUrls, store.clicks ++ [⟨code, clickAtMs, referrer, ipAddress, userAgent⟩]⟩)
      else (RedirectResult.serverError, store)

/-- Insertion step of the `ORDER BY clicked_at DESC` model: place `c` before
the first row whose `clicked_at` is strictly smaller (so ties keep their
relative order). -/
def insertByClickedAtDesc (c : ClickEvent) : List ClickEvent → List ClickEvent
  | [] => [c]
  | x :: xs =>
    if x.clickedAt < c.clickedAt then c :: x :: xs
    else x :: insertByClickedAtDesc c xs

/-- The order produced by `SELECT ... FROM clicks WHERE shortcode = ? ORDER BY
clicked_at DESC`: an insertion sort by descending `clicked_at` (SQLite
guarantees only that the `clicked_at` column is non-increasing in the
result; this sort is one such order). -/
def sortByClickedAtDesc : List ClickEvent → List ClickEvent
  | [] => []
  | c :: cs => insertByClickedAtDesc c (sortByClickedAtDesc cs)

/-- The rows the statistics route reads for a code: the `WHERE shortcode = ?`
filter and the `ORDER BY clicked_at DESC`. -/
def clicksFor (store : Store) (code : String) : List ClickEvent :=
  sortByClickedAtDesc (store.clicks.filter (fun c => c.shortcode == code))

/-- One entry of `clickDetails` in the statistics response:
`{timestamp, referrer: referrer || 'Direct', ipAddress, userAgent}`. -/
structure ClickDetail where
  timestamp : Int
  referrer : String
  ipAddress : String
  userAgent : Option String
deriving DecidableEq, Repr

/-- The statistics response body of `GET /shorturls/:shortcode`. -/
structure Statistics where
  shortcode : String
  originalUrl : String
  createdAt : Int
  expiresAt : Int
  validityMinutes : Int
  totalClicks : Nat
  isExpired : Bool
  clickDetails : List ClickDetail
deriving DecidableEq, Repr

/-- The statistics route `GET /shorturls/:shortcode`
(`app.get('/shorturls/:shortcode')` in `src/server.js`): 404 (`none`) when
the row is absent; otherwise the row's fields, `totalClicks = clicks.length`,
`isExpired = new Date() > new Date(expires_at)`, and `clickDetails` mapped
from the ordered click rows with `referrer || 'Direct'`. -/
def fetchStatistics (store : Store) (code : String) (nowMs : Int) : Option Statistics :=
  match dbGetShortUrl store code with
  | none => none
  | some r =>
    let clicks := clicksFor store code
    some ⟨r.shortcode, r.originalUrl, r.createdAt, r.expiresAt, r.validityMinutes,
          clicks.length, isExpired nowMs r.expiresAt,
          clicks.map (fun c => ⟨c.clickedAt, c.referrer.getD "Direct", c.ipAddress, c.userAgent⟩)⟩

/-- Strict descent of a timestamp list: every element is strictly greater than
its successor. -/
def strictDescListB : List Int → Bool
  | [] => true
  | [_] => true
  | a :: b :: rest => decide (b < a) && strictDescListB (b :: rest)

/-- Non-strict descent of a timestamp list: every element is at least its
successor. -/
def descListB : List Int → Bool
  | [] => true
  | [_] => true
  | a :: b :: rest => decide (b ≤ a) && descListB (b :: rest)

/-! ## Helper lemmas -/

/-- A custom shortcode accepted by `isValidShortcode` is nonempty. -/
theorem isValidShortcode_ne_empty {c : String} (hc : isValidShortcode c = true) : c ≠ "" := by
  intro h
  subst h
  simp [isValidShortcode] at hc

/-- Evaluation of the create route on the custom-shortcode path once the URL,
validity and shortcode checks pass and the uniqueness read does not throw:
the outcome is decided by the `INSERT`. -/
theorem create_custom_step (validUrl : String → Bool) (gen : Nat → String) (store : Store)
    (u : String) (validity : Option String) (c : String) (nowMs dbNowMs : Int) (v : Int)
    (insert : InsertOutcome)
    (hu : u ≠ "") (hurl : validUrl u = true)
    (hv : validateValidityPeriod (validity.getD "30") = Except.ok v)
    (hc : isValidShortcode c = true) (hfree : dbGetShortUrl store c = none) :
    create validUrl gen store (some u) validity (some c) nowMs dbNowMs false insert
      = (match insert with
         | InsertOutcome.ok =>
           (CreateResult.created
              ⟨"http://localhost:8000/" ++ c, nowMs + v * 60000, c, u, v⟩,
            (⟨store.shortUrls ++ [⟨c, u, dbNowMs, nowMs + v * 60000, v⟩],
              store.clicks⟩ : Store))
         | InsertOutcome.uniqueViolation => (CreateResult.serverError, store)
         | InsertOutcome.otherFault => (CreateResult.serverError, store)) := by
  have hcne : c ≠ "" := isValidShortcode_ne_empty hc
  simp only [create, Option.getD_some, if_neg hu, hurl, Bool.not_true, Bool.false_eq_true,
    if_false, hv, hc, isShortcodeUnique, hfree, Option.isNone_none, if_neg hcne, if_pos hcne,
    Bool.not_false, Bool.true_eq_false, ite_false, ite_true, ne_eq, not_false_eq_true]

/-- Evaluation of the create route on the generated-shortcode path once the
URL and validity checks pass: the outcome is decided by
`generateUniqueShortcode` and then by the `INSERT`. -/
theorem create_generated_step (validUrl : String → Bool) (gen : Nat → String) (store : Store)
    (u : String) (validity : Option String) (nowMs dbNowMs : Int) (v : Int)
    (readFault : Bool) (insert : InsertOutcome)
    (hu : u ≠ "") (hurl : validUrl u = true)
    (hv : validateValidityPeriod (validity.getD "30") = Except.ok v) :
    create validUrl gen store (some u) validity none nowMs dbNowMs readFault insert
      = (match generateUniqueShortcode gen (isShortcodeUnique readFault store) 10 with
         | none => (CreateResult.generationExhausted, store)
         | some c =>
           match insert with
           | InsertOutcome.ok =>
             (CreateResult.created
                ⟨"http://localhost:8000/" ++ c, nowMs + v * 60000, c, u, v⟩,
              (⟨store.shortUrls ++ [⟨c, u, dbNowMs, nowMs + v * 60000, v⟩],
                store.clicks⟩ : Store))
           | InsertOutcome.uniqueViolation => (CreateResult.serverError, store)
           | InsertOutcome.otherFault => (CreateResult.serverError, store)) := by
  simp only [create, Option.getD_some, Option.getD_none, if_neg hu, hurl, Bool.not_true,
    Bool.false_eq_true, if_false, hv, ne_eq, not_true_eq_false, ite_false, ite_true,
    reduceIte]
  cases generateUniqueShortcode gen (isShortcodeUnique readFault store) 10 <;> rfl

/-- Evaluation of the create route when the validity check fails (after the
URL checks pass): the route answers 400 with the sub-kind and touches
nothing. -/
theorem create_validity_error (validUrl : String → Bool) (gen : Nat → String) (store : Store)
    (u : String) (validity sc : Option String) (nowMs dbNowMs : Int) (e : ValidityError)
    (readFault : Bool) (insert : InsertOutcome)
    (hu : u ≠ "") (hurl : validUrl u = true)
    (hv : validateValidityPeriod (validity.getD "30") = Except.error e) :
    create validUrl gen store (some u) validity sc nowMs dbNowMs readFault insert
      = (CreateResult.invalidValidity e, store) := by
  simp only [create, Option.getD_some, if_neg hu, hurl, Bool.not_true, Bool.false_eq_true,
    if_false, hv, ite_false, ite_true, reduceIte]

/-- When every candidate from position `attempts` up to `maxAttempts - 1`
collides, the generation loop gives up and returns `null`. -/
theorem genLoop_none (gen : Nat → String) (unique : String → Bool)
    (maxAttempts attempts : Nat)
    (h : ∀ i, attempts ≤ i → i < maxAttempts → unique (gen i) = false) :
    genLoop gen unique maxAttempts attempts = none := by
  unfold genLoop
  split
  · rfl
  · rename_i hle
    show (if unique (gen attempts) = true then some (gen attempts)
          else genLoop gen unique maxAttempts (attempts + 1)) = none
    rw [h attempts le_rfl (by omega)]
    simp only [Bool.false_eq_true, if_false]
    exact genLoop_none gen unique maxAttempts (attempts + 1)
      (fun i h1 h2 => h i (by omega) h2)
termination_by maxAttempts - attempts

/-- The generation loop returns the first candidate that passes the
uniqueness check, provided it appears before the attempt budget runs out. -/
theorem genLoop_first (gen : Nat → String) (unique : String → Bool)
    (maxAttempts attempts j : Nat)
    (hja : attempts ≤ j) (hjm : j < maxAttempts) (hj : unique (gen j) = true)
    (hmin : ∀ i, attempts ≤ i → i < j → unique (gen i) = false) :
    genLoop gen unique maxAttempts attempts = some (gen j) := by
  unfold genLoop
  split
  · omega
  · rename_i hle
    show (if unique (gen attempts) = true then some (gen attempts)
          else genLoop gen unique maxAttempts (attempts + 1)) = some (gen j)
    by_cases hcur : j = attempts
    · subst hcur
      rw [hj]
      simp
    · rw [hmin attempts le_rfl (by omega)]
      simp only [Bool.false_eq_true, if_false]
      exact genLoop_first gen unique maxAttempts (attempts + 1) j (by omega) hjm hj
        (fun i h1 h2 => hmin i (by omega) h2)
termination_by maxAttempts - attempts

/-- A candidate returned by the generation loop passed the uniqueness check. -/
theorem genLoop_some_unique (gen : Nat → String) (unique : String → Bool)
    (maxAttempts attempts : Nat) (c : String)
    (h : genLoop gen unique maxAttempts attempts = some c) : unique c = true := by
  rw [genLoop] at h
  split at h
  · exact absurd h (by simp)
  · split at h
    · rename_i hu
      cases h
      exact hu
    · exact genLoop_some_unique gen unique maxAttempts (attempts + 1) c h
termination_by maxAttempts - attempts

/-! ## Claims -/

/-- C2 counterexample: a record that expires at millisecond `60000`, queried
exactly at millisecond `60000` (the boundary instant `current time ==
expiresAt`), is NOT reported expired — the route still hands the record to
the redirect — contradicting the claim that the boundary instant already
fails with `Expired`. -/
theorem fetch_at_boundary_not_expired :
    fetchForRedirect (Store.mk [ShortUrl.mk "abc" "https://example.com" 0 60000 1] [])
        "abc" 60000
      ≠ FetchResult.expired 60000
    ∧ fetchForRedirect (Store.mk [ShortUrl.mk "abc" "https://example.com" 0 60000 1] [])
        "abc" 60000
      = FetchResult.found (ShortUrl.mk "abc" "https://example.com" 0 60000 1) := by
  constructor
  · decide
  · decide

/-- C2 (amended): `fetchForRedirect` fails `NotFound` exactly when no record
exists; when a record exists it fails `Expired`, carrying the stored expiry
timestamp, exactly when the current time is STRICTLY greater than
`expiresAt` (at the boundary instant `current time == expiresAt` the record
is still returned), and otherwise returns the record. -/
theorem fetchForRedirect_cases (store : Store) (code : String) (nowMs : Int) :
    (dbGetShortUrl store code = none → fetchForRedirect store code nowMs = FetchResult.notFound)
    ∧ (∀ r, dbGetShortUrl store code = some r →
        (r.expiresAt < nowMs →
          fetchForRedirect store code nowMs = FetchResult.expired r.expiresAt)
        ∧ (¬ r.expiresAt < nowMs →
          fetchForRedirect store code nowMs = FetchResult.found r)) := by
  refine ⟨fun h => ?_, fun r h => ⟨fun hexp => ?_, fun hexp => ?_⟩⟩
  · simp [fetchForRedirect, h]
  · simp [fetchForRedirect, h, isExpired, hexp]
  · simp [fetchForRedirect, h, isExpired, hexp]

/-- C2 witness: instantiating `fetchForRedirect_cases` on a one-record store
at a time strictly past the expiry, and on an empty store. -/
theorem fetchForRedirect_cases_witness :
    fetchForRedirect (Store.mk [ShortUrl.mk "abc" "https://example.com" 0 60000 1] [])
        "abc" 60001
      = FetchResult.expired 60000
    ∧ fetchForRedirect (Store.mk [] []) "abc" 60001 = FetchResult.notFound := by
  constructor
  · exact ((fetchForRedirect_cases (Store.mk [ShortUrl.mk "abc" "https://example.com" 0 60000 1] [])
      "abc" 60001).2 (ShortUrl.mk "abc" "https://example.com" 0 60000 1) (by decide)).1 (by decide)
  · exact (fetchForRedirect_cases (Store.mk [] []) "abc" 60001).1 (by decide)

/-- C3 counterexample: a redirect that `fetchForRedirect` has authorized (the
record exists and is not expired) but whose click insert throws answers the
catch-all 500 server error — it does NOT still issue the 302 redirect to the
original URL, contradicting the claim that click recording is best-effort. -/
theorem click_insert_failure_fails_redirect :
    (handleRedirect (Store.mk [ShortUrl.mk "abc" "https://example.com" 0 60000 1] [])
        "abc" 10 10 none "1.2.3.4" none false).1
      = RedirectResult.serverError
    ∧ RedirectResult.serverError ≠ RedirectResult.redirect "https://example.com"
    ∧ fetchForRedirect (Store.mk [ShortUrl.mk "abc" "https://example.com" 0 60000 1] [])
        "abc" 10
      = FetchResult.found (ShortUrl.mk "abc" "https://example.com" 0 60000 1) := by
  refine ⟨by decide, by decide, by decide⟩

/-- C3 (amended): once `fetchForRedirect` has authorized a redirect, the click
insert is awaited before the 302 is sent, so a failure of the click insert
fails the whole request with the generic 500 server error (and records
nothing); the 302 redirect to the original URL is issued only when the click
insert succeeds. -/
theorem redirect_requires_click_insert (store : Store) (code : String)
    (nowMs clickAtMs : Int) (referrer : Option String) (ipAddress : String)
    (userAgent : Option String) (r : ShortUrl)
    (hns : specialRoutes.contains code = false)
    (hfound : fetchForRedirect store code nowMs = FetchResult.found r) :
    handleRedirect store code nowMs clickAtMs referrer ipAddress userAgent false
      = (RedirectResult.serverError, store)
    ∧ handleRedirect store code nowMs clickAtMs referrer ipAddress userAgent true
      = (RedirectResult.redirect r.originalUrl,
         ⟨store.shortUrls,
          store.clicks ++ [⟨code, clickAtMs, referrer, ipAddress, userAgent⟩]⟩) := by
  have hns' : ¬ code ∈ specialRoutes := by simpa using hns
  constructor
  · simp [handleRedirect, hns', hfound]
  · simp [handleRedirect, hns', hfound]

/-- C3 witness: instantiating `redirect_requires_click_insert` on a concrete
valid record. -/
theorem redirect_requires_click_insert_witness :
    handleRedirect (Store.mk [ShortUrl.mk "abc" "https://example.com" 0 60000 1] [])
        "abc" 10 10 none "1.2.3.4" none true
      = (RedirectResult.redirect "https://example.com",
         ⟨[ShortUrl.mk "abc" "https://example.com" 0 60000 1],
          [ClickEvent.mk "abc" 10 none "1.2.3.4" none]⟩) :=
  (redirect_requires_click_insert
    (Store.mk [ShortUrl.mk "abc" "https://example.com" 0 60000 1] []) "abc" 10 10
    none "1.2.3.4" none (ShortUrl.mk "abc" "https://example.com" 0 60000 1)
    (by decide) (by decide)).2

/-- C4 counterexample: a create call whose `INSERT` throws the unique-constraint
violation (a concurrent creator won the race after the uniqueness pre-check
passed on the empty store) answers the catch-all 500 server error, NOT the
409 duplicate-code error the claim requires. -/
theorem insert_unique_violation_is_500 :
    (create (fun _ => true) (fun _ => "x23456") (Store.mk [] [])
        (some "https://example.com") (some "30") (some "abc") 0 0 false
        InsertOutcome.uniqueViolation).1
      = CreateResult.serverError
    ∧ CreateResult.serverError ≠ CreateResult.duplicateCode := by
  refine ⟨by decide, by decide⟩

/-- C4 (amended): when the `INSERT` fails with the unique-constraint violation
after every pre-check passed (valid URL, valid validity, well-formed custom
code that the pre-check found available), the create route's single catch-all
maps it — like any other insert failure — to the generic 500 server error
with the store unchanged; it is not surfaced as the 409 `DuplicateCode`
outcome. -/
theorem create_uniqueViolation_serverError (validUrl : String → Bool) (gen : Nat → String)
    (store : Store) (u : String) (validity : Option String) (c : String)
    (nowMs dbNowMs : Int) (v : Int)
    (hu : u ≠ "") (hurl : validUrl u = true)
    (hv : validateValidityPeriod (validity.getD "30") = Except.ok v)
    (hc : isValidShortcode c = true) (hfree : dbGetShortUrl store c = none) :
    create validUrl gen store (some u) validity (some c) nowMs dbNowMs false
        InsertOutcome.uniqueViolation
      = (CreateResult.serverError, store)
    ∧ CreateResult.serverError ≠ CreateResult.duplicateCode := by
  refine ⟨?_, by decide⟩
  rw [create_custom_step validUrl gen store u validity c nowMs dbNowMs v
    InsertOutcome.uniqueViolation hu hurl hv hc hfree]

/-- C4 witness: instantiating `create_uniqueViolation_serverError` at concrete
inputs. -/
theorem create_uniqueViolation_serverError_witness :
    create (fun _ => true) (fun _ => "x23456") (Store.mk [] [])
        (some "https://example.com") (some "30") (some "xyz") 0 0 false
        InsertOutcome.uniqueViolation
      = (CreateResult.serverError, Store.mk [] []) :=
  (create_uniqueViolation_serverError (fun _ => true) (fun _ => "x23456") (Store.mk [] [])
    "https://example.com" (some "30") "xyz" 0 0 30
    (by decide) rfl rfl (by decide) rfl).1

/-- C5: `validateValidityPeriod` parses its input with `parseInt` and fails
`NotANumber` when the parse yields `NaN`, `TooShort` when the parsed value is
`< 1`, `TooLong` when it is `> 10080`, and otherwise returns the integer
minutes; accordingly `create` succeeds at the boundary values 1 and 10080
and fails with the matching sub-kind for every value outside `[1, 10080]`. -/
theorem validateValidityPeriod_spec (validUrl : String → Bool) (gen : Nat → String)
    (store : Store) (u c : String) (nowMs dbNowMs : Int)
    (hu : u ≠ "") (hurl : validUrl u = true)
    (hc : isValidShortcode c = true) (hfree : dbGetShortUrl store c = none) :
    (∀ raw, parseIntJS raw = none →
        validateValidityPeriod raw = Except.error ValidityError.notANumber)
    ∧ (∀ raw m, parseIntJS raw = some m → m < 1 →
        validateValidityPeriod raw = Except.error ValidityError.tooShort)
    ∧ (∀ raw m, parseIntJS raw = some m → 10080 < m →
        validateValidityPeriod raw = Except.error ValidityError.tooLong)
    ∧ (∀ raw m, parseIntJS raw = some m → 1 ≤ m → m ≤ 10080 →
        validateValidityPeriod raw = Except.ok m)
    ∧ (create validUrl gen store (some u) (some "1") (some c) nowMs dbNowMs false
          InsertOutcome.ok).1
        = CreateResult.created ⟨"http://localhost:8000/" ++ c, nowMs + 1 * 60000, c, u, 1⟩
    ∧ (create validUrl gen store (some u) (some "10080") (some c) nowMs dbNowMs false
          InsertOutcome.ok).1
        = CreateResult.created
            ⟨"http://localhost:8000/" ++ c, nowMs + 10080 * 60000, c, u, 10080⟩
    ∧ (∀ raw m, parseIntJS raw = some m → m < 1 →
        (create validUrl gen store (some u) (some raw) (some c) nowMs dbNowMs false
            InsertOutcome.ok).1
          = CreateResult.invalidValidity ValidityError.tooShort)
    ∧ (∀ raw m, parseIntJS raw = some m → 10080 < m →
        (create validUrl gen store (some u) (some raw) (some c) nowMs dbNowMs false
            InsertOutcome.ok).1
          = CreateResult.invalidValidity ValidityError.tooLong)
    ∧ (∀ raw, parseIntJS raw = none →
        (create validUrl gen store (some u) (some raw) (some c) nowMs dbNowMs false
            InsertOutcome.ok).1
          = CreateResult.invalidValidity ValidityError.notANumber) := by
  have hnan : ∀ raw, parseIntJS raw = none →
      validateValidityPeriod raw = Except.error ValidityError.notANumber := by
    intro raw h
    simp [validateValidityPeriod, h]
  have hshort : ∀ raw m, parseIntJS raw = some m → m < 1 →
      validateValidityPeriod raw = Except.error ValidityError.tooShort := by
    intro raw m h hm
    simp [validateValidityPeriod, h, hm]
  have hlong : ∀ raw m, parseIntJS raw = some m → 10080 < m →
      validateValidityPeriod raw = Except.error ValidityError.tooLong := by
    intro raw m h hm
    simp [validateValidityPeriod, h, hm]
    omega
  have hok : ∀ raw m, parseIntJS raw = some m → 1 ≤ m → m ≤ 10080 →
      validateValidityPeriod raw = Except.ok m := by
    intro raw m h h1 h2
    simp only [validateValidityPeriod, h]
    rw [if_neg (by omega), if_neg (by omega)]
  refine ⟨hnan, hshort, hlong, hok, ?_, ?_, ?_, ?_, ?_⟩
  · rw [create_custom_step validUrl gen store u (some "1") c nowMs dbNowMs 1
      InsertOutcome.ok hu hurl rfl hc hfree]
  · rw [create_custom_step validUrl gen store u (some "10080") c nowMs dbNowMs 10080
      InsertOutcome.ok hu hurl rfl hc hfree]
  · intro raw m h hm
    rw [create_validity_error validUrl gen store u (some raw) (some c) nowMs dbNowMs
      ValidityError.tooShort false InsertOutcome.ok hu hurl (hshort raw m h hm)]
  · intro raw m h hm
    rw [create_validity_error validUrl gen store u (some raw) (some c) nowMs dbNowMs
      ValidityError.tooLong false InsertOutcome.ok hu hurl (hlong raw m h hm)]
  · intro raw h
    rw [create_validity_error validUrl gen store u (some raw) (some c) nowMs dbNowMs
      ValidityError.notANumber false InsertOutcome.ok hu hurl (hnan raw h)]

/-- C5 witness: instantiating `validateValidityPeriod_spec` on concrete inputs:
the parser cases at `"abc"`, `"0"`, `"10081"`, `"30"`, and the create
boundary at validity `"1"`. -/
theorem validateValidityPeriod_spec_witness :
    validateValidityPeriod "abc" = Except.error ValidityError.notANumber
    ∧ validateValidityPeriod "0" = Except.error ValidityError.tooShort
    ∧ validateValidityPeriod "10081" = Except.error ValidityError.tooLong
    ∧ validateValidityPeriod "30" = Except.ok 30
    ∧ (create (fun _ => true) (fun _ => "x23456") (Store.mk [] [])
          (some "https://example.com") (some "1") (some "xyz") 0 0 false
          InsertOutcome.ok).1
        = CreateResult.created
            ⟨"http://localhost:8000/xyz", 0 + 1 * 60000, "xyz", "https://example.com", 1⟩ := by
  have h := validateValidityPeriod_spec (fun _ => true) (fun _ => "x23456") (Store.mk [] [])
    "https://example.com" "xyz" 0 0 (by decide) rfl (by decide) rfl
  exact ⟨h.1 "abc" rfl, h.2.1 "0" 0 rfl (by decide), h.2.2.1 "10081" 10081 rfl (by decide),
    h.2.2.2.1 "30" 30 rfl (by decide) (by decide), h.2.2.2.2.1⟩

/-- C6: the generation loop terminates within the attempt budget: it returns
the first candidate that passes the uniqueness check when one appears among
the first `maxAttempts` candidates, and after `maxAttempts` consecutive
collisions it returns `null` instead of looping further — which the create
route surfaces as the 500 server-side `GenerationExhausted` outcome (the
route calls it with the default budget of 10). -/
theorem generateUniqueShortcode_spec (gen : Nat → String) (unique : String → Bool)
    (maxAttempts : Nat) (validUrl : String → Bool) (store : Store) (u : String)
    (validity : Option String) (nowMs dbNowMs : Int) (v : Int)
    (hu : u ≠ "") (hurl : validUrl u = true)
    (hv : validateValidityPeriod (validity.getD "30") = Except.ok v) :
    ((∀ i, i < maxAttempts → unique (gen i) = false) →
      generateUniqueShortcode gen unique maxAttempts = none)
    ∧ (∀ j, j < maxAttempts → unique (gen j) = true →
        (∀ i, i < j → unique (gen i) = false) →
        generateUniqueShortcode gen unique maxAttempts = some (gen j))
    ∧ ((∀ i, i < 10 → isShortcodeUnique false store (gen i) = false) →
        create validUrl gen store (some u) validity none nowMs dbNowMs false
            InsertOutcome.ok
          = (CreateResult.generationExhausted, store)) := by
  refine ⟨?_, ?_, ?_⟩
  · intro h
    exact genLoop_none gen unique maxAttempts 0 (fun i _ h2 => h i h2)
  · intro j hjm hj hmin
    exact genLoop_first gen unique maxAttempts 0 j (Nat.zero_le j) hjm hj
      (fun i _ h2 => hmin i h2)
  · intro h
    rw [create_generated_step validUrl gen store u validity nowMs dbNowMs v false
      InsertOutcome.ok hu hurl hv]
    rw [show generateUniqueShortcode gen (isShortcodeUnique false store) 10 = none from
      genLoop_none gen (isShortcodeUnique false store) 10 0 (fun i _ h2 => h i h2)]

/-- C6 witness: instantiating `generateUniqueShortcode_spec` with an oracle
whose fourth candidate is the first unique one, with an always-colliding
oracle, and with a store-level collision on every candidate (a store already
holding the candidate `"x23456"` that the constant oracle keeps drawing). -/
theorem generateUniqueShortcode_spec_witness :
    generateUniqueShortcode (fun i => toString i) (fun s => s == "3") 10 = some "3"
    ∧ generateUniqueShortcode (fun i => toString i) (fun _ => false) 10 = none
    ∧ create (fun _ => true) (fun _ => "x23456")
          (Store.mk [ShortUrl.mk "x23456" "https://a.com" 0 1 1] [])
          (some "https://example.com") none none 0 0 false InsertOutcome.ok
        = (CreateResult.generationExhausted,
           Store.mk [ShortUrl.mk "x23456" "https://a.com" 0 1 1] []) := by
  have h1 := generateUniqueShortcode_spec (fun i => toString i) (fun s => s == "3") 10
    (fun _ => true) (Store.mk [] []) "https://example.com" none 0 0 30
    (by decide) rfl rfl
  have h2 := generateUniqueShortcode_spec (fun i => toString i) (fun _ => false) 10
    (fun _ => true) (Store.mk [] []) "https://example.com" none 0 0 30
    (by decide) rfl rfl
  have h3 := generateUniqueShortcode_spec (fun _ => "x23456") (fun _ => false) 10
    (fun _ => true) (Store.mk [ShortUrl.mk "x23456" "https://a.com" 0 1 1] [])
    "https://example.com" none 0 0 30 (by decide) rfl rfl
  refine ⟨?_, h2.1 (fun i _ => rfl), h3.2.2 (fun i _ => rfl)⟩
  exact h1.2.1 3 (by decide) (by decide) (by decide)

/-- C9: a create call with the `validity` field absent from the request body
does not fail: the destructuring default makes it behave exactly as if
`validity = 30` had been supplied, and on the custom-code path it produces a
record and response with `validityMinutes = 30` and
`expiresAt` = creation-clock reading + 30 minutes. -/
theorem create_default_validity (validUrl : String → Bool) (gen : Nat → String)
    (store : Store) (url sc : Option String) (nowMs dbNowMs : Int)
    (readFault : Bool) (insert : InsertOutcome) (u c : String)
    (hu : u ≠ "") (hurl : validUrl u = true)
    (hc : isValidShortcode c = true) (hfree : dbGetShortUrl store c = none) :
    create validUrl gen store url none sc nowMs dbNowMs readFault insert
      = create validUrl gen store url (some "30") sc nowMs dbNowMs readFault insert
    ∧ create validUrl gen store (some u) none (some c) nowMs dbNowMs false InsertOutcome.ok
      = (CreateResult.created
           ⟨"http://localhost:8000/" ++ c, nowMs + 30 * 60000, c, u, 30⟩,
         ⟨store.shortUrls ++ [⟨c, u, dbNowMs, nowMs + 30 * 60000, 30⟩],
          store.clicks⟩) := by
  refine ⟨rfl, ?_⟩
  rw [create_custom_step validUrl gen store u none c nowMs dbNowMs 30
    InsertOutcome.ok hu hurl rfl hc hfree]

/-- C9 witness: instantiating `create_default_validity` at concrete inputs. -/
theorem create_default_validity_witness :
    create (fun _ => true) (fun _ => "x23456") (Store.mk [] [])
        (some "https://example.com") none (some "xyz") 7 7 false InsertOutcome.ok
      = (CreateResult.created
           ⟨"http://localhost:8000/xyz", 7 + 30 * 60000, "xyz", "https://example.com", 30⟩,
         ⟨[ShortUrl.mk "xyz" "https://example.com" 7 (7 + 30 * 60000) 30], []⟩) :=
  (create_default_validity (fun _ => true) (fun _ => "x23456") (Store.mk [] [])
    (some "https://example.com") (some "xyz") 7 7 false InsertOutcome.ok
    "https://example.com" "xyz" (by decide) rfl (by decide) rfl).2

/-- C10: when the datastore read inside the uniqueness check throws,
`isShortcodeUnique` swallows the error and returns `false`; consequently a
create call with a well-formed custom code that is actually available (no
record holds it) reports the 409 duplicate-code outcome rather than a
server-side fault. -/
theorem create_readFault_duplicateCode (validUrl : String → Bool) (gen : Nat → String)
    (store : Store) (u : String) (validity : Option String) (c : String)
    (nowMs dbNowMs : Int) (v : Int) (insert : InsertOutcome)
    (hu : u ≠ "") (hurl : validUrl u = true)
    (hv : validateValidityPeriod (validity.getD "30") = Except.ok v)
    (hc : isValidShortcode c = true) (hfree : dbGetShortUrl store c = none) :
    isShortcodeUnique true store c = false
    ∧ create validUrl gen store (some u) validity (some c) nowMs dbNowMs true insert
      = (CreateResult.duplicateCode, store)
    ∧ CreateResult.duplicateCode ≠ CreateResult.serverError := by
  have hcne : c ≠ "" := isValidShortcode_ne_empty hc
  refine ⟨rfl, ?_, by decide⟩
  simp only [create, Option.getD_some, if_neg hu, hurl, Bool.not_true, Bool.false_eq_true,
    if_false, hv, hc, isShortcodeUnique, if_neg hcne, if_pos hcne, Bool.not_false,
    Bool.true_eq_false, ite_false, ite_true, reduceIte, ne_eq, not_false_eq_true]

/-- C10 witness: instantiating `create_readFault_duplicateCode` on the empty
store, where the custom code `"xyz"` is certainly available. -/
theorem create_readFault_duplicateCode_witness :
    create (fun _ => true) (fun _ => "x23456") (Store.mk [] [])
        (some "https://example.com") (some "30") (some "xyz") 0 0 true InsertOutcome.ok
      = (CreateResult.duplicateCode, Store.mk [] []) :=
  (create_readFault_duplicateCode (fun _ => true) (fun _ => "x23456") (Store.mk [] [])
    "https://example.com" (some "30") "xyz" 0 0 30 InsertOutcome.ok
    (by decide) rfl rfl (by decide) rfl).2.1

/-- A row freshly appended to the `short_urls` table is found by the point
lookup, provided its code was not already present. -/
theorem dbGetShortUrl_append_row (store : Store) (clicks : List ClickEvent)
    (row : ShortUrl) (code : String)
    (hfree : dbGetShortUrl store code = none) (hrow : row.shortcode = code) :
    dbGetShortUrl ⟨store.shortUrls ++ [row], clicks⟩ code = some row := by
  unfold dbGetShortUrl at hfree ⊢
  rw [List.find?_append, hfree]
  simp [hrow]

/-- The datastore after a successful redirect: the `clicks` table grew by the
one recorded event, the `short_urls` table is untouched. -/
theorem handleRedirect_success_store (store : Store) (code : String)
    (nowMs clickAtMs : Int) (referrer : Option String) (ipAddress : String)
    (userAgent : Option String) (r : ShortUrl)
    (hns : ¬ code ∈ specialRoutes)
    (hget : dbGetShortUrl store code = some r) (hexp : ¬ r.expiresAt < nowMs) :
    (handleRedirect store code nowMs clickAtMs referrer ipAddress userAgent true).2
      = ⟨store.shortUrls,
         store.clicks ++ [⟨code, clickAtMs, referrer, ipAddress, userAgent⟩]⟩ := by
  simp [handleRedirect, fetchForRedirect, hns, hget, isExpired, hexp]

/-- C1 counterexample: a successful `create` whose process clock reads
millisecond 0 while the datastore clock stamps `created_at` at millisecond
1000 (the schema's `DEFAULT CURRENT_TIMESTAMP` is an independent, later,
second-granularity clock reading) stores `expiresAt = 300000` for
`validity = 5`, which differs from `createdAt + 5 minutes = 301000`: the
expiry is NOT derivable from `createdAt` and `validityMinutes`. -/
theorem expiry_not_derivable_from_createdAt :
    (create (fun _ => true) (fun _ => "x23456") (Store.mk [] [])
        (some "https://example.com") (some "5") (some "abc") 0 1000 false
        InsertOutcome.ok).2
      = Store.mk [ShortUrl.mk "abc" "https://example.com" 1000 300000 5] []
    ∧ (300000 : Int) ≠ 1000 + 5 * 60000 := by
  refine ⟨by decide, by decide⟩

/-- C1 (amended): after a successful `create(url, v)` — on either the
custom-code or the generated-code path — a `fetchForRedirect` on the
returned shortcode at any time not past the expiry returns a record with the
same `originalUrl`, and the stored `expiresAt` equals the process-clock
reading at creation plus exactly `v` minutes; `createdAt`, however, is
stamped independently by the datastore clock at insert, so `expiresAt` is
derivable from `createdAt + v minutes` only when the two clock readings
coincide. -/
theorem create_roundtrip_expiry (validUrl : String → Bool) (gen : Nat → String)
    (store : Store) (u : String) (validity : Option String) (nowMs dbNowMs t : Int)
    (v : Int)
    (hu : u ≠ "") (hurl : validUrl u = true)
    (hv : validateValidityPeriod (validity.getD "30") = Except.ok v)
    (ht : ¬ nowMs + v * 60000 < t) :
    (∀ c, isValidShortcode c = true → dbGetShortUrl store c = none →
      create validUrl gen store (some u) validity (some c) nowMs dbNowMs false
          InsertOutcome.ok
        = (CreateResult.created ⟨"http://localhost:8000/" ++ c, nowMs + v * 60000, c, u, v⟩,
           ⟨store.shortUrls ++ [⟨c, u, dbNowMs, nowMs + v * 60000, v⟩], store.clicks⟩)
      ∧ fetchForRedirect
          ⟨store.shortUrls ++ [⟨c, u, dbNowMs, nowMs + v * 60000, v⟩], store.clicks⟩ c t
        = FetchResult.found ⟨c, u, dbNowMs, nowMs + v * 60000, v⟩)
    ∧ (∀ c, generateUniqueShortcode gen (isShortcodeUnique false store) 10 = some c →
      create validUrl gen store (some u) validity none nowMs dbNowMs false
          InsertOutcome.ok
        = (CreateResult.created ⟨"http://localhost:8000/" ++ c, nowMs + v * 60000, c, u, v⟩,
           ⟨store.shortUrls ++ [⟨c, u, dbNowMs, nowMs + v * 60000, v⟩], store.clicks⟩)
      ∧ fetchForRedirect
          ⟨store.shortUrls ++ [⟨c, u, dbNowMs, nowMs + v * 60000, v⟩], store.clicks⟩ c t
        = FetchResult.found ⟨c, u, dbNowMs, nowMs + v * 60000, v⟩) := by
  constructor
  · intro c hc hfree
    refine ⟨?_, ?_⟩
    · rw [create_custom_step validUrl gen store u validity c nowMs dbNowMs v
        InsertOutcome.ok hu hurl hv hc hfree]
    · have hfind := dbGetShortUrl_append_row store store.clicks
        ⟨c, u, dbNowMs, nowMs + v * 60000, v⟩ c hfree rfl
      simp [fetchForRedirect, hfind, isExpired, ht]
  · intro c hgen
    have hc : isShortcodeUnique false store c = true :=
      genLoop_some_unique gen (isShortcodeUnique false store) 10 0 c hgen
    have hfree : dbGetShortUrl store c = none := by
      simpa [isShortcodeUnique, Option.isNone_iff_eq_none] using hc
    refine ⟨?_, ?_⟩
    · rw [create_generated_step validUrl gen store u validity nowMs dbNowMs v false
        InsertOutcome.ok hu hurl hv, hgen]
    · have hfind := dbGetShortUrl_append_row store store.clicks
        ⟨c, u, dbNowMs, nowMs + v * 60000, v⟩ c hfree rfl
      simp [fetchForRedirect, hfind, isExpired, ht]

/-- C1 witness: instantiating `create_roundtrip_expiry` on the empty store
with validity `"5"`, custom code `"xyz"`, creation clock 0, datastore clock
1000, fetched at millisecond 60: the fetched record carries the original
URL and expiry 0 + 5 * 60000. -/
theorem create_roundtrip_expiry_witness :
    create (fun _ => true) (fun _ => "x23456") (Store.mk [] [])
        (some "https://example.com") (some "5") (some "xyz") 0 1000 false InsertOutcome.ok
      = (CreateResult.created
           ⟨"http://localhost:8000/xyz", 0 + 5 * 60000, "xyz", "https://example.com", 5⟩,
         ⟨[ShortUrl.mk "xyz" "https://example.com" 1000 (0 + 5 * 60000) 5], []⟩)
    ∧ fetchForRedirect
        (⟨[ShortUrl.mk "xyz" "https://example.com" 1000 (0 + 5 * 60000) 5], []⟩ : Store)
        "xyz" 60
      = FetchResult.found (ShortUrl.mk "xyz" "https://example.com" 1000 (0 + 5 * 60000) 5) :=
  (create_roundtrip_expiry (fun _ => true) (fun _ => "x23456") (Store.mk [] [])
    "https://example.com" (some "5") 0 1000 60 5 (by decide) rfl rfl (by decide)).1
    "xyz" (by decide) rfl

/-- C8 counterexample: `'favicon.ico'` contains a dot, so it FAILS the 3-20
alphanumeric format check and the create route rejects it as a custom code
with the 400 invalid-format error — contradicting the claim that all four
special route names are accepted by create. -/
theorem favicon_rejected_by_create :
    isValidShortcode "favicon.ico" = false
    ∧ (create (fun _ => true) (fun _ => "x23456") (Store.mk [] [])
        (some "https://example.com") none (some "favicon.ico") 0 0 false
        InsertOutcome.ok).1
      = CreateResult.invalidShortcodeFormat := by
  refine ⟨by decide, by decide⟩

/-- C8 (amended): the redirect route unconditionally answers 404 for the four
special route names `'api'`, `'shorturls'`, `'static'`, `'favicon.ico'`,
even when a ShortUrl record with that shortcode exists; the first three are
3-20-character alphanumeric strings that `create` happily accepts as custom
codes (so such records can never redirect), while `'favicon.ico'` fails the
format check and cannot be created. -/
theorem reserved_codes_never_redirect :
    (∀ code, code ∈ specialRoutes →
      ∀ (store : Store) (nowMs clickAtMs : Int) (referrer : Option String)
        (ipAddress : String) (userAgent : Option String) (ok : Bool),
        handleRedirect store code nowMs clickAtMs referrer ipAddress userAgent ok
          = (RedirectResult.notFound, store))
    ∧ isValidShortcode "api" = true
    ∧ isValidShortcode "shorturls" = true
    ∧ isValidShortcode "static" = true
    ∧ isValidShortcode "favicon.ico" = false
    ∧ (∀ c, c = "api" ∨ c = "shorturls" ∨ c = "static" →
        ∀ (gen : Nat → String) (nowMs dbNowMs : Int),
        (create (fun _ => true) gen (Store.mk [] []) (some "https://example.com") none
            (some c) nowMs dbNowMs false InsertOutcome.ok).1
          = CreateResult.created
              ⟨"http://localhost:8000/" ++ c, nowMs + 30 * 60000, c,
               "https://example.com", 30⟩) := by
  refine ⟨?_, by decide, by decide, by decide, by decide, ?_⟩
  · intro code hmem store nowMs clickAtMs referrer ipAddress userAgent ok
    simp [handleRedirect, hmem]
  · intro c hc gen nowMs dbNowMs
    have hvc : isValidShortcode c = true := by
      rcases hc with h | h | h <;> subst h <;> decide
    rw [create_custom_step (fun _ => true) gen (Store.mk [] []) "https://example.com"
      none c nowMs dbNowMs 30 InsertOutcome.ok (by decide) rfl rfl hvc rfl]

/-- C8 witness: instantiating `reserved_codes_never_redirect`: the code
`'api'` is created successfully as a custom code, yet a redirect on a store
holding exactly that record still answers 404. -/
theorem reserved_codes_never_redirect_witness :
    handleRedirect (Store.mk [ShortUrl.mk "api" "https://example.com" 0 60000 1] [])
        "api" 10 10 none "1.2.3.4" none true
      = (RedirectResult.notFound,
         Store.mk [ShortUrl.mk "api" "https://example.com" 0 60000 1] [])
    ∧ (create (fun _ => true) (fun _ => "x23456") (Store.mk [] [])
        (some "https://example.com") none (some "api") 0 0 false InsertOutcome.ok).1
      = CreateResult.created
          ⟨"http://localhost:8000/api", 0 + 30 * 60000, "api", "https://example.com", 30⟩ :=
  ⟨reserved_codes_never_redirect.1 "api" (by decide)
    (Store.mk [ShortUrl.mk "api" "https://example.com" 0 60000 1] []) 10 10 none
    "1.2.3.4" none true,
   reserved_codes_never_redirect.2.2.2.2.2 "api" (Or.inl rfl) (fun _ => "x23456") 0 0⟩

/-- Head bound used to reason about the descending sort: the head of the
timestamp list (when any) is at most `b`. -/
def hdLE (b : Int) : List Int → Bool
  | [] => true
  | a :: _ => decide (a ≤ b)

/-- Unfolding of `descListB` one element at a time. -/
theorem descListB_cons_eq (a : Int) (l : List Int) :
    descListB (a :: l) = (hdLE a l && descListB l) := by
  cases l <;> rfl

/-- Inserting into a (non-strictly) descending timestamp list keeps it
descending, and keeps any upper bound on the head that also bounds the
inserted element. -/
theorem insert_keeps_desc (c : ClickEvent) (l : List ClickEvent)
    (h : descListB (l.map ClickEvent.clickedAt) = true) :
    descListB ((insertByClickedAtDesc c l).map ClickEvent.clickedAt) = true
    ∧ ∀ b : Int, c.clickedAt ≤ b → hdLE b (l.map ClickEvent.clickedAt) = true →
        hdLE b ((insertByClickedAtDesc c l).map ClickEvent.clickedAt) = true := by
  induction l with
  | nil =>
    refine ⟨rfl, ?_⟩
    intro b hcb _
    simpa [insertByClickedAtDesc, hdLE] using hcb
  | cons x xs ih =>
    rw [List.map_cons, descListB_cons_eq, Bool.and_eq_true] at h
    by_cases hlt : x.clickedAt < c.clickedAt
    · refine ⟨?_, ?_⟩
      · simp only [insertByClickedAtDesc, if_pos hlt, List.map_cons, descListB_cons_eq,
          Bool.and_eq_true, hdLE]
        exact ⟨by simpa using le_of_lt hlt, h.1, h.2⟩
      · intro b hcb _
        simp only [insertByClickedAtDesc, if_pos hlt, List.map_cons, hdLE]
        simpa using hcb
    · have hcx : c.clickedAt ≤ x.clickedAt := not_lt.mp hlt
      have ihx := ih h.2
      refine ⟨?_, ?_⟩
      · simp only [insertByClickedAtDesc, if_neg hlt, List.map_cons, descListB_cons_eq,
          Bool.and_eq_true]
        exact ⟨ihx.2 x.clickedAt hcx h.1, ihx.1⟩
      · intro b _ hb
        simp only [List.map_cons, hdLE] at hb
        simp only [insertByClickedAtDesc, if_neg hlt, List.map_cons, hdLE]
        exact hb

/-- The timestamp column of the `ORDER BY clicked_at DESC` model is always
non-strictly descending. -/
theorem sortByClickedAtDesc_desc (l : List ClickEvent) :
    descListB ((sortByClickedAtDesc l).map ClickEvent.clickedAt) = true := by
  induction l with
  | nil => rfl
  | cons c cs ih => exact (insert_keeps_desc c (sortByClickedAtDesc cs) ih).1

/-- The descending sort preserves the number of rows. -/
theorem insertByClickedAtDesc_length (c : ClickEvent) (l : List ClickEvent) :
    (insertByClickedAtDesc c l).length = l.length + 1 := by
  induction l with
  | nil => rfl
  | cons x xs ih =>
    simp only [insertByClickedAtDesc]
    split
    · simp
    · simp [ih]

/-- The descending sort returns exactly the filtered rows, reordered. -/
theorem sortByClickedAtDesc_length (l : List ClickEvent) :
    (sortByClickedAtDesc l).length = l.length := by
  induction l with
  | nil => rfl
  | cons c cs ih => simp [sortByClickedAtDesc, insertByClickedAtDesc_length, ih]

/-- C7 counterexample: two clicks on the same code stamped with the same
`clicked_at` (the column has second granularity, so two redirects within one
second collide) make `clickDetails` NOT strictly descending — both entries
carry timestamp 1000 — contradicting the claimed strict order. -/
theorem clickDetails_tie_not_strict :
    ((fetchStatistics (Store.mk [ShortUrl.mk "abc" "https://example.com" 0 60000 1]
        [ClickEvent.mk "abc" 1000 none "1.1.1.1" none,
         ClickEvent.mk "abc" 1000 none "2.2.2.2" none]) "abc" 0).map
      (fun st => st.clickDetails.map ClickDetail.timestamp))
      = some [1000, 1000]
    ∧ ((fetchStatistics (Store.mk [ShortUrl.mk "abc" "https://example.com" 0 60000 1]
        [ClickEvent.mk "abc" 1000 none "1.1.1.1" none,
         ClickEvent.mk "abc" 1000 none "2.2.2.2" none]) "abc" 0).map
      (fun st => strictDescListB (st.clickDetails.map ClickDetail.timestamp)))
      = some false := by
  refine ⟨by decide, by decide⟩

/-- C7 (amended): the click events returned by `fetchStatistics` are ordered
in non-strictly descending `clickedAt` order (ties — possible at the
datastore's second granularity — sit adjacent in unspecified relative
order), with `totalClicks` the length of that list; when the click times are
pairwise distinct the order is strict: in particular after three redirects
to the same valid code at strictly increasing times, the statistics report
`totalClicks = 3` with the details most-recent-first. -/
theorem clickDetails_sorted_desc (store : Store) (code : String) (nowMs : Int)
    (st : Statistics) (h : fetchStatistics store code nowMs = some st) :
    descListB (st.clickDetails.map ClickDetail.timestamp) = true
    ∧ st.totalClicks = st.clickDetails.length
    ∧ (∀ (r : ShortUrl) (t1 t2 t3 tq : Int) (ip1 ip2 ip3 : String),
        ¬ r.shortcode ∈ specialRoutes →
        t1 < t2 → t2 < t3 →
        ¬ r.expiresAt < t1 → ¬ r.expiresAt < t2 → ¬ r.expiresAt < t3 →
        ∀ st3, fetchStatistics
            ((handleRedirect
              ((handleRedirect
                ((handleRedirect (⟨[r], []⟩ : Store)
                  r.shortcode t1 t1 none ip1 none true).2)
                r.shortcode t2 t2 none ip2 none true).2)
              r.shortcode t3 t3 none ip3 none true).2)
            r.shortcode tq = some st3 →
          st3.totalClicks = 3
          ∧ st3.clickDetails.map ClickDetail.timestamp = [t3, t2, t1]
          ∧ strictDescListB (st3.clickDetails.map ClickDetail.timestamp) = true) := by
  refine ⟨?_, ?_, ?_⟩
  · unfold fetchStatistics at h
    cases hg : dbGetShortUrl store code with
    | none => rw [hg] at h; cases h
    | some r =>
      rw [hg] at h
      cases h
      simp only [List.map_map]
      have hcomp : (ClickDetail.timestamp ∘ fun c : ClickEvent =>
          (⟨c.clickedAt, c.referrer.getD "Direct", c.ipAddress, c.userAgent⟩ : ClickDetail))
          = ClickEvent.clickedAt := rfl
      rw [hcomp]
      exact sortByClickedAtDesc_desc (store.clicks.filter (fun c => c.shortcode == code))
  · unfold fetchStatistics at h
    cases hg : dbGetShortUrl store code with
    | none => rw [hg] at h; cases h
    | some r =>
      rw [hg] at h
      cases h
      simp
  · intro r t1 t2 t3 tq ip1 ip2 ip3 hns h12 h23 he1 he2 he3 st3 hst
    have hget : ∀ clicks : List ClickEvent,
        dbGetShortUrl ⟨[r], clicks⟩ r.shortcode = some r := by
      intro clicks
      simp [dbGetShortUrl]
    have h1 : (handleRedirect (⟨[r], []⟩ : Store) r.shortcode t1 t1 none ip1 none true).2
        = ⟨[r], [⟨r.shortcode, t1, none, ip1, none⟩]⟩ := by
      rw [handleRedirect_success_store (⟨[r], []⟩ : Store) r.shortcode t1 t1 none ip1
        none r hns (hget []) he1]
      rfl
    rw [h1] at hst
    have h2 : (handleRedirect (⟨[r], [⟨r.shortcode, t1, none, ip1, none⟩]⟩ : Store)
          r.shortcode t2 t2 none ip2 none true).2
        = ⟨[r], [⟨r.shortcode, t1, none, ip1, none⟩,
                 ⟨r.shortcode, t2, none, ip2, none⟩]⟩ := by
      rw [handleRedirect_success_store _ r.shortcode t2 t2 none ip2 none r hns
        (hget [⟨r.shortcode, t1, none, ip1, none⟩]) he2]
      rfl
    rw [h2] at hst
    have h3 : (handleRedirect (⟨[r], [⟨r.shortcode, t1, none, ip1, none⟩,
          ⟨r.shortcode, t2, none, ip2, none⟩]⟩ : Store)
          r.shortcode t3 t3 none ip3 none true).2
        = ⟨[r], [⟨r.shortcode, t1, none, ip1, none⟩,
                 ⟨r.shortcode, t2, none, ip2, none⟩,
                 ⟨r.shortcode, t3, none, ip3, none⟩]⟩ := by
      rw [handleRedirect_success_store _ r.shortcode t3 t3 none ip3 none r hns
        (hget [⟨r.shortcode, t1, none, ip1, none⟩, ⟨r.shortcode, t2, none, ip2, none⟩])
        he3]
      rfl
    rw [h3] at hst
    have n32 : ¬ ((⟨r.shortcode, t3, none, ip3, none⟩ : ClickEvent).clickedAt
        < (⟨r.shortcode, t2, none, ip2, none⟩ : ClickEvent).clickedAt) := by
      show ¬ t3 < t2
      omega
    have n31 : ¬ ((⟨r.shortcode, t3, none, ip3, none⟩ : ClickEvent).clickedAt
        < (⟨r.shortcode, t1, none, ip1, none⟩ : ClickEvent).clickedAt) := by
      show ¬ t3 < t1
      omega
    have n21 : ¬ ((⟨r.shortcode, t2, none, ip2, none⟩ : ClickEvent).clickedAt
        < (⟨r.shortcode, t1, none, ip1, none⟩ : ClickEvent).clickedAt) := by
      show ¬ t2 < t1
      omega
    have hsort : clicksFor (⟨[r], [⟨r.shortcode, t1, none, ip1, none⟩,
          ⟨r.shortcode, t2, none, ip2, none⟩,
          ⟨r.shortcode, t3, none, ip3, none⟩]⟩ : Store) r.shortcode
        = [⟨r.shortcode, t3, none, ip3, none⟩, ⟨r.shortcode, t2, none, ip2, none⟩,
           ⟨r.shortcode, t1, none, ip1, none⟩] := by
      simp [clicksFor, sortByClickedAtDesc, insertByClickedAtDesc, n32, n31, n21]
    unfold fetchStatistics at hst
    rw [hget [⟨r.shortcode, t1, none, ip1, none⟩, ⟨r.shortcode, t2, none, ip2, none⟩,
      ⟨r.shortcode, t3, none, ip3, none⟩]] at hst
    rw [hsort] at hst
    cases hst
    refine ⟨rfl, rfl, ?_⟩
    simp only [List.map_cons, List.map_nil, strictDescListB, Bool.and_eq_true,
      decide_eq_true_eq]
    exact ⟨h23, h12, trivial⟩

/-- C7 witness: instantiating `clickDetails_sorted_desc` on a store holding
one record and two tied clicks (the general ordering conjuncts), and running
its three-redirect scenario at times 10 < 20 < 30. -/
theorem clickDetails_sorted_desc_witness :
    (∀ st, fetchStatistics (Store.mk [ShortUrl.mk "abc" "https://example.com" 0 60000 1]
        [ClickEvent.mk "abc" 1000 none "1.1.1.1" none,
         ClickEvent.mk "abc" 1000 none "2.2.2.2" none]) "abc" 0 = some st →
      descListB (st.clickDetails.map ClickDetail.timestamp) = true)
    ∧ (∀ st3, fetchStatistics
          ((handleRedirect
            ((handleRedirect
              ((handleRedirect
                (⟨[ShortUrl.mk "abc" "https://example.com" 0 60000 1], []⟩ : Store)
                "abc" 10 10 none "1.1.1.1" none true).2)
              "abc" 20 20 none "2.2.2.2" none true).2)
            "abc" 30 30 none "3.3.3.3" none true).2)
          "abc" 40 = some st3 →
        st3.totalClicks = 3
        ∧ st3.clickDetails.map ClickDetail.timestamp = [30, 20, 10]) := by
  constructor
  · intro st hst
    exact (clickDetails_sorted_desc _ "abc" 0 st hst).1
  · intro st3 hst
    have h := (clickDetails_sorted_desc
      (Store.mk [ShortUrl.mk "abc" "https://example.com" 0 60000 1]
        [ClickEvent.mk "abc" 1000 none "1.1.1.1" none,
         ClickEvent.mk "abc" 1000 none "2.2.2.2" none]) "abc" 0 _ rfl).2.2
      (ShortUrl.mk "abc" "https://example.com" 0 60000 1) 10 20 30 40
      "1.1.1.1" "2.2.2.2" "3.3.3.3" (by decide) (by decide) (by decide)
      (by decide) (by decide) (by decide) st3 hst
    exact ⟨h.1, h.2.1⟩

end UrlShortener
